import Mathlib

/-!
# Night-watch dashboard client (`static/app.js`)

A shallow embedding of the client-side synchronisation and polling engine:
the transport adapter `api`, the refresh functions, the health poller, the
click/submit/change handlers and the bootstrap sequence `boot`.

Modelling conventions
* A run of an `async` function is sequential: every `await` yields to an
  outcome supplied by the environment (`Env`), and writes made before a
  `throw` persist (`Eff` keeps the world next to the raised error).
* `Date.now()` is an integer number of milliseconds.
* Successful response bodies are decoded at the shapes the endpoints
  promise (`Shift` or null, array of `Task`, the start envelope, the
  health snapshot); `api` itself is modelled on raw JSON values.
* View-only DOM writes (class names, labels, gauges) are left out; the DOM
  properties that the logic reads back or that carry a presentation state
  (`cb.checked`, input values, `systemMeta`, `shiftHint`, `hbDot`) are kept.
-/

namespace NightWatch

/-! ## JavaScript values reachable from a parsed JSON body -/

/-- Values of the host language that `res.json()` and a property read on its
result can produce. Numbers are restricted to integers. -/
inductive JsVal where
  | undefined
  | null
  | bool (b : Bool)
  | num (n : Int)
  | str (s : String)
  | arr (xs : List JsVal)
  | obj (fields : List (String × JsVal))

/-- Truthiness (`ToBoolean`) of a value. -/
def JsVal.truthy : JsVal → Bool
  | .undefined => false
  | .null => false
  | .bool b => b
  | .num n => n != 0
  | .str s => s != ""
  | .arr _ => true
  | .obj _ => true

/-- Join of already rendered array elements with a comma, as `Array.prototype.join`. -/
def joinComma : List String → String
  | [] => ""
  | [s] => s
  | s :: rest => s ++ "," ++ joinComma rest

mutual
/-- String conversion (`ToString`) of a value, as applied by `new Error(msg)`. -/
def JsVal.toStr : JsVal → String
  | .undefined => "undefined"
  | .null => "null"
  | .bool b => if b then "true" else "false"
  | .num n => toString n
  | .str s => s
  | .arr xs => joinComma (JsVal.elemsToStr xs)
  | .obj _ => "[object Object]"
/-- Rendering of array elements for the join: null and undefined give the empty string. -/
def JsVal.elemsToStr : List JsVal → List String
  | [] => []
  | .undefined :: rest => "" :: JsVal.elemsToStr rest
  | .null :: rest => "" :: JsVal.elemsToStr rest
  | x :: rest => JsVal.toStr x :: JsVal.elemsToStr rest
end

/-- The optional-chained read `j?.detail`: undefined on null and undefined, the
own property on an object (keys of a parsed object are distinct), undefined on
every other value. -/
def JsVal.detail : JsVal → JsVal
  | .obj fields => (fields.lookup "detail").getD .undefined
  | _ => .undefined

/-! ## Transport adapter -/

/-- What `fetch` resolves to: status, reason phrase and the outcome of
`res.json()` (the parsed body, or the parse error's message). -/
structure Response where
  status : Nat
  statusText : String
  json : Except String JsVal

/-- The getter `res.ok`: the status is in the range 200 to 299. -/
def Response.ok (res : Response) : Bool :=
  200 ≤ res.status && res.status ≤ 299

/-- The template literal with the status and the reason phrase. -/
def Response.statusLine (res : Response) : String :=
  toString res.status ++ " " ++ res.statusText

/-- Function `api(path, opts)` after the `fetch` has settled: `fetched` is the
rejection message of `fetch` or the response it resolved to. -/
def api (fetched : Except String Response) : Except String JsVal :=
  match fetched with
  | .error e => .error e
  | .ok res =>
    if !res.ok then
      let msg : JsVal := .str res.statusLine
      let msg : JsVal :=
        match res.json with
        | .ok j => if j.detail.truthy then j.detail else msg
        | .error _ => msg
      .error msg.toStr
    else if res.status == 204 then .ok .null
    else res.json

/-! ## Data model -/

/-- A shift as held by the client. -/
structure Shift where
  id : String
  started_at : String
  ended_at : Option String
  notes : Option String
  deriving DecidableEq, Repr

/-- A task of the current shift. -/
structure Task where
  id : String
  title : String
  completed_at : Option String
  deriving DecidableEq, Repr

/-- The part of a health snapshot that the poller's presentation depends on. -/
structure Sys where
  network_up : Bool
  «at» : String
  deriving DecidableEq, Repr

/-- Success envelope of `POST /api/shift/start`. -/
structure StartResp where
  shift : Option Shift
  carried_task_count : Option Nat
  already_active : Option Bool
  deriving DecidableEq, Repr

/-- The module-level object `state`. -/
structure State where
  shift : Option Shift
  tasks : List Task
  focus : Bool
  lastSystemOkAt : Int
  deriving DecidableEq, Repr

/-- Body handed to `fetch`: none, a literal text, or `JSON.stringify` of an
object with the single string field `notes` or `title`. -/
inductive Body where
  | none
  | raw (text : String)
  | notes (notes : String)
  | title (title : String)
  deriving DecidableEq, Repr

/-- One invocation of `api`. -/
structure Request where
  method : String
  path : String
  body : Body
  deriving DecidableEq, Repr

/-- Everything a run can read or write: `state`, the DOM properties kept by the
model, and three logs (requests issued, `toast` calls, `setInterval`
registrations). -/
structure World where
  state : State
  shiftHint : String
  shiftNotes : String
  taskTitle : String
  taskMeta : String
  checks : List Bool
  hbOk : Bool
  systemMeta : String
  calls : List Request
  toasts : List String
  timers : List (String × Nat)
  deriving DecidableEq, Repr

/-- What the environment answers during one run: per endpoint the outcome of
`await api(...)` (rejection message or decoded body), the reading of
`Date.now()`, the locale rendering of a time, and the two stored focus flags. -/
structure Env where
  shiftCurrent : Except String (Option Shift)
  tasksCurrent : Except String (List Task)
  system : Except String Sys
  shiftStart : Except String StartResp
  shiftEnd : Except String Unit
  saveNotes : Except String (Option Shift)
  createTask : Except String Unit
  completeTask : Except String Unit
  reopenTask : Except String Unit
  deleteTask : Except String Unit
  now : Int
  fmtTime : String → String
  qsFocus : Option String
  savedFocus : Option String

/-! ## Effects -/

/-- A computation over the world that returns or throws; the world reached
before a throw is kept. -/
def Eff (α : Type) : Type := World → Except String α × World

/-- Sequencing: a throw skips the continuation. -/
def Eff.bind {α β : Type} (m : Eff α) (f : α → Eff β) : Eff β := fun w =>
  match m w with
  | (.ok a, w1) => f a w1
  | (.error e, w1) => (.error e, w1)

instance : Monad Eff where
  pure a := fun w => (.ok a, w)
  bind := Eff.bind

/-- The statement `try body catch (e) handler`. -/
def Eff.tryCatch {α : Type} (body : Eff α) (handler : String → Eff α) : Eff α := fun w =>
  match body w with
  | (.ok a, w1) => (.ok a, w1)
  | (.error e, w1) => handler e w1

/-- Read the world. -/
def getWorld : Eff World := fun w => (.ok w, w)

/-- Update the world. -/
def modifyWorld (f : World → World) : Eff Unit := fun w => (.ok (), f w)

/-- Update the object `state`. -/
def modifyState (f : State → State) : Eff Unit :=
  modifyWorld fun w => { w with state := f w.state }

/-- The expression `await api(...)`: the request is issued and the environment's
outcome is returned or thrown. -/
def call {α : Type} (req : Request) (outcome : Except String α) : Eff α := fun w =>
  (outcome, { w with calls := w.calls ++ [req] })

/-! ## Rendering and notification -/

/-- Truthiness of an optional string property (null, undefined and the empty
string are falsy). -/
def truthyStr : Option String → Bool
  | some s => s != ""
  | none => false

/-- Function `renderShift`: the notes field shows the shift's notes, or is
emptied when there is no shift. -/
def renderShift : Eff Unit :=
  modifyWorld fun w =>
    match w.state.shift with
    | none => { w with shiftNotes := "" }
    | some s => { w with shiftNotes := if truthyStr s.notes then s.notes.getD "" else "" }

/-- Function `renderTasks`: the counter text and one checkbox per task, checked
when the task has a completion timestamp. -/
def renderTasks : Eff Unit :=
  modifyWorld fun w =>
    { w with
      taskMeta := toString w.state.tasks.length ++ " total / " ++
        toString (w.state.tasks.filter fun t => truthyStr t.completed_at).length ++ " done"
      checks := w.state.tasks.map fun t => truthyStr t.completed_at }

/-- Function `renderSystem`: the only text kept is the update line. -/
def renderSystem (env : Env) (sys : Sys) : Eff Unit :=
  modifyWorld fun w => { w with systemMeta := "updated " ++ env.fmtTime sys.at }

/-- Function `toast`: the hint shows the message (its timed clearing is not
modelled). -/
def toast (msg : String) : Eff Unit :=
  modifyWorld fun w => { w with shiftHint := msg, toasts := w.toasts ++ [msg] }

/-! ## Refresh functions and the health poller -/

/-- Function `refreshShift`. -/
def refreshShift (env : Env) : Eff Unit := do
  let s ← call ⟨"GET", "/api/shift/current", .none⟩ env.shiftCurrent
  modifyState fun st => { st with shift := s }
  renderShift

/-- Function `refreshTasks`. -/
def refreshTasks (env : Env) : Eff Unit := do
  let ts ← call ⟨"GET", "/api/tasks/current", .none⟩ env.tasksCurrent
  modifyState fun st => { st with tasks := ts }
  renderTasks

/-- The expression `Math.round(staleFor / 1000)` on an integer `staleFor`:
the nearest integer, halves going up. -/
def roundSeconds (staleFor : Int) : Int := (staleFor + 500) / 1000

/-- The text written by the `catch` branch of `pollSystem`. -/
def offlineText (staleFor : Int) : String :=
  if staleFor != 0 then "offline (" ++ toString (roundSeconds staleFor) ++ "s)" else "offline"

/-- Function `pollSystem`. -/
def pollSystem (env : Env) : Eff Unit :=
  Eff.tryCatch
    (do
      let sys ← call ⟨"GET", "/api/system", .none⟩ env.system
      modifyState fun st => { st with lastSystemOkAt := env.now }
      modifyWorld fun w => { w with hbOk := true }
      renderSystem env sys)
    (fun _ => do
      modifyWorld fun w => { w with hbOk := false }
      let w ← getWorld
      let staleFor := env.now - w.state.lastSystemOkAt
      modifyWorld fun w => { w with systemMeta := offlineText staleFor })

/-! ## Handlers -/

/-- Truthiness of an optional count (undefined and zero are falsy). -/
def truthyNat : Option Nat → Bool
  | some n => n != 0
  | none => false

/-- White space and line terminators, the characters removed by `String.prototype.trim`. -/
def isJsSpace (c : Char) : Bool :=
  let n := c.toNat
  n == 0x09 || n == 0x0A || n == 0x0B || n == 0x0C || n == 0x0D || n == 0x20 || n == 0xA0 ||
  n == 0x1680 || (0x2000 ≤ n && n ≤ 0x200A) || n == 0x2028 || n == 0x2029 || n == 0x202F ||
  n == 0x205F || n == 0x3000 || n == 0xFEFF

/-- Method `trim`: white space is dropped at both ends. -/
def jsTrim (s : String) : String :=
  ⟨((s.data.dropWhile isJsSpace).reverse.dropWhile isJsSpace).reverse⟩

/-- Click handler of `shiftStart`. -/
def shiftStartClick (env : Env) : Eff Unit :=
  Eff.tryCatch
    (do
      let r ← call ⟨"POST", "/api/shift/start", .raw "{}"⟩ env.shiftStart
      modifyState fun st => { st with shift := r.shift }
      renderShift
      refreshTasks env
      if truthyNat r.carried_task_count then
        toast ("Carried " ++ toString (r.carried_task_count.getD 0) ++ " task(s).")
      else if r.already_active == some true then toast "Shift already active."
      else toast "Shift started.")
    (fun e => toast e)

/-- Click handler of `shiftEnd`. -/
def shiftEndClick (env : Env) : Eff Unit :=
  Eff.tryCatch
    (do
      let _ ← call ⟨"POST", "/api/shift/end", .raw "{}"⟩ env.shiftEnd
      toast "Shift ended."
      refreshShift env
      modifyState fun st => { st with tasks := [] }
      renderTasks)
    (fun e => toast e)

/-- Click handler of `saveNotes`; the notes sent are the value of the notes field. -/
def saveNotesClick (env : Env) : Eff Unit :=
  Eff.tryCatch
    (do
      let w ← getWorld
      match w.state.shift with
      | none => pure ()
      | some sh =>
        let s ← call ⟨"PUT", "/api/shift/" ++ sh.id ++ "/notes", .notes w.shiftNotes⟩ env.saveNotes
        modifyState fun st => { st with shift := s }
        toast "Notes saved.")
    (fun e => toast e)

/-- Submit handler of `taskForm`; the entered title is the value of the title field. -/
def taskFormSubmit (env : Env) : Eff Unit := do
  let w ← getWorld
  if w.state.shift.isNone then toast "Start a shift first."
  else
    let title := jsTrim w.taskTitle
    if title == "" then pure ()
    else
      modifyWorld fun w => { w with taskTitle := "" }
      Eff.tryCatch
        (do
          let _ ← call ⟨"POST", "/api/tasks", .title title⟩ env.createTask
          refreshTasks env)
        (fun e => toast e)

/-- Change handler of the checkbox rendered at position `i` for task `t`;
`cb.checked` is the `i`-th entry of `checks`. -/
def checkboxChange (env : Env) (i : Nat) (t : Task) : Eff Unit :=
  Eff.tryCatch
    (do
      let w ← getWorld
      if w.checks.getD i false then
        call ⟨"POST", "/api/tasks/" ++ t.id ++ "/complete", .none⟩ env.completeTask
      else
        call ⟨"POST", "/api/tasks/" ++ t.id ++ "/reopen", .none⟩ env.reopenTask
      refreshTasks env)
    (fun e => do
      modifyWorld fun w => { w with checks := w.checks.set i (!(w.checks.getD i false)) }
      toast e)

/-- Click handler of the delete button of task `t`. -/
def deleteClick (env : Env) (t : Task) : Eff Unit :=
  Eff.tryCatch
    (do
      call ⟨"DELETE", "/api/tasks/" ++ t.id, .none⟩ env.deleteTask
      refreshTasks env)
    (fun e => toast e)

/-! ## Bootstrap and periodic cycles -/

/-- Function `setFocus` (class, label and stored flag are not modelled). -/
def setFocus (isOn : Bool) : Eff Unit :=
  modifyState fun st => { st with focus := isOn }

/-- The call `setInterval(callback, ms)`, logged by the callback's name. -/
def setInterval (callback : String) (ms : Nat) : Eff Unit :=
  modifyWorld fun w => { w with timers := w.timers ++ [(callback, ms)] }

/-- Function `boot`; registering the handlers has no effect on the world. -/
def boot (env : Env) : Eff Unit := do
  setInterval "tick" 1000
  if env.qsFocus == some "1" then setFocus true
  if env.savedFocus == some "1" then setFocus true
  refreshShift env
  refreshTasks env
  pollSystem env
  setInterval "pollSystem" 3000
  setInterval "refreshShift" 5000
  setInterval "refreshTasks" 5000

/-- The three periodic cycles started by `boot`. -/
inductive Cycle where
  | health
  | shift
  | tasks
  deriving DecidableEq, Repr

/-- One firing of a periodic timer: the callback runs, and a rejection of its
promise is handled by nobody. -/
def Cycle.fire (env : Env) : Cycle → Eff Unit
  | .health => pollSystem env
  | .shift => refreshShift env
  | .tasks => refreshTasks env

/-- Successive attempts of the poller, each in its own environment (its own
outcome and clock reading). -/
def pollRun : List Env → World → World
  | [], w => w
  | env :: rest, w => pollRun rest (pollSystem env w).2

/-- The initial world: `state` as declared, nothing rendered or logged yet. -/
def World.init : World :=
  { state := { shift := none, tasks := [], focus := false, lastSystemOkAt := 0 }
    shiftHint := "", shiftNotes := "", taskTitle := "", taskMeta := "", checks := []
    hbOk := false, systemMeta := "", calls := [], toasts := [], timers := [] }

/-- An environment in which every request is rejected with `msg`. -/
def Env.down (msg : String) (now : Int) : Env :=
  { shiftCurrent := .error msg, tasksCurrent := .error msg, system := .error msg
    shiftStart := .error msg, shiftEnd := .error msg, saveNotes := .error msg
    createTask := .error msg, completeTask := .error msg, reopenTask := .error msg
    deleteTask := .error msg, now := now, fmtTime := id, qsFocus := none, savedFocus := none }

/-! ## Running computations -/

theorem Eff.bind_run {α β : Type} (m : Eff α) (f : α → Eff β) (w : World) :
    (m >>= f) w = match m w with
      | (.ok a, w1) => f a w1
      | (.error e, w1) => (.error e, w1) := rfl

theorem Eff.pure_run {α : Type} (a : α) (w : World) :
    (pure a : Eff α) w = (.ok a, w) := rfl

theorem call_run {α : Type} (req : Request) (outcome : Except String α) (w : World) :
    call req outcome w = (outcome, { w with calls := w.calls ++ [req] }) := rfl

/-- A failed poll writes the offline text computed from the clock reading and the
recorded timestamp, and changes nothing in `state`. -/
theorem pollSystem_failed (env : Env) (w : World) (e : String) (h : env.system = .error e) :
    pollSystem env w = (.ok (),
      { w with
        calls := w.calls ++ [⟨"GET", "/api/system", .none⟩]
        hbOk := false
        systemMeta := offlineText (env.now - w.state.lastSystemOkAt) }) := by
  simp [pollSystem, Eff.tryCatch, Eff.bind_run, call_run, h, modifyWorld, getWorld]

/-- A successful poll records the clock reading as the success timestamp. -/
theorem pollSystem_succeeded (env : Env) (w : World) (sys : Sys) (h : env.system = .ok sys) :
    pollSystem env w = (.ok (),
      { w with
        calls := w.calls ++ [⟨"GET", "/api/system", .none⟩]
        state := { w.state with lastSystemOkAt := env.now }
        hbOk := true
        systemMeta := "updated " ++ env.fmtTime sys.at }) := by
  simp [pollSystem, Eff.tryCatch, Eff.bind_run, call_run, h, modifyWorld, modifyState,
    renderSystem]

theorem refreshShift_failed (env : Env) (w : World) (e : String)
    (h : env.shiftCurrent = .error e) :
    refreshShift env w
      = (.error e, { w with calls := w.calls ++ [⟨"GET", "/api/shift/current", .none⟩] }) := by
  simp [refreshShift, Eff.bind_run, call_run, h]

theorem refreshTasks_failed (env : Env) (w : World) (e : String)
    (h : env.tasksCurrent = .error e) :
    refreshTasks env w
      = (.error e, { w with calls := w.calls ++ [⟨"GET", "/api/tasks/current", .none⟩] }) := by
  simp [refreshTasks, Eff.bind_run, call_run, h]

theorem refreshShift_succeeded (env : Env) (w : World) (s : Option Shift)
    (h : env.shiftCurrent = .ok s) :
    refreshShift env w
      = renderShift { w with
          calls := w.calls ++ [⟨"GET", "/api/shift/current", .none⟩]
          state := { w.state with shift := s } } := by
  simp [refreshShift, Eff.bind_run, call_run, h, modifyState, modifyWorld]

theorem refreshTasks_succeeded (env : Env) (w : World) (ts : List Task)
    (h : env.tasksCurrent = .ok ts) :
    refreshTasks env w
      = renderTasks { w with
          calls := w.calls ++ [⟨"GET", "/api/tasks/current", .none⟩]
          state := { w.state with tasks := ts } } := by
  simp [refreshTasks, Eff.bind_run, call_run, h, modifyState, modifyWorld]

/-! ## Health poller -/

/-- A clock reading differing from the recorded timestamp gives the text with the
elapsed seconds. -/
theorem offlineText_of_ne (staleFor : Int) (h : staleFor ≠ 0) :
    offlineText staleFor = "offline (" ++ toString (roundSeconds staleFor) ++ "s)" := by
  simp [offlineText, h]

/-- The displayed seconds grow with the elapsed milliseconds. -/
theorem roundSeconds_mono {a b : Int} (h : a ≤ b) : roundSeconds a ≤ roundSeconds b := by
  unfold roundSeconds
  exact Int.ediv_le_ediv (by decide) (by omega)

theorem pollRun_append (xs ys : List Env) (w : World) :
    pollRun (xs ++ ys) w = pollRun ys (pollRun xs w) := by
  induction xs generalizing w with
  | nil => rfl
  | cons x xs ih => simp [pollRun, ih]

/-- Failed polls never touch `state`, in particular not the success timestamp. -/
theorem pollRun_failed_state (envs : List Env) (w : World)
    (h : ∀ env ∈ envs, ∃ e, env.system = .error e) :
    (pollRun envs w).state = w.state := by
  induction envs generalizing w with
  | nil => rfl
  | cons env rest ih =>
    obtain ⟨e, he⟩ := h env (List.mem_cons_self _ _)
    have hrest : ∀ x ∈ rest, ∃ e, x.system = .error e :=
      fun x hx => h x (List.mem_cons_of_mem _ hx)
    simp [pollRun, pollSystem_failed env w e he, ih _ hrest]

/-- After a successful poll at clock reading t0, in any series of failed polls
two successive ones taken at readings t0 < t1 <= t2 both show
"offline (Ns)" with N the rounded seconds since t0, the second shows no fewer
seconds than the first, and the recorded success timestamp is still t0. -/
theorem pollRun_stale_monotone (ok : Env) (sys : Sys) (before : List Env) (e1 e2 : Env)
    (w : World) (hok : ok.system = .ok sys)
    (hfail : ∀ env ∈ before ++ [e1, e2], ∃ e, env.system = .error e)
    (hlt : ok.now < e1.now) (hle : e1.now ≤ e2.now) :
    (pollRun (ok :: (before ++ [e1])) w).systemMeta
        = "offline (" ++ toString (roundSeconds (e1.now - ok.now)) ++ "s)"
    ∧ (pollRun (ok :: (before ++ [e1, e2])) w).systemMeta
        = "offline (" ++ toString (roundSeconds (e2.now - ok.now)) ++ "s)"
    ∧ roundSeconds (e1.now - ok.now) ≤ roundSeconds (e2.now - ok.now)
    ∧ (pollRun (ok :: (before ++ [e1, e2])) w).state.lastSystemOkAt = ok.now := by
  have hb : ∀ env ∈ before, ∃ e, env.system = .error e :=
    fun x hx => hfail x (List.mem_append_left _ hx)
  obtain ⟨m1, h1⟩ := hfail e1 (by simp)
  obtain ⟨m2, h2⟩ := hfail e2 (by simp)
  refine ⟨?_, ?_, roundSeconds_mono (by omega), ?_⟩
  · simp only [pollRun, pollRun_append, pollSystem_succeeded ok w sys hok,
      pollSystem_failed e1 _ m1 h1, pollRun_failed_state before _ hb]
    exact offlineText_of_ne _ (by omega)
  · simp only [pollRun, pollRun_append, pollSystem_succeeded ok w sys hok,
      pollSystem_failed e1 _ m1 h1, pollSystem_failed e2 _ m2 h2,
      pollRun_failed_state before _ hb]
    exact offlineText_of_ne _ (by omega)
  · simp only [pollRun, pollSystem_succeeded ok w sys hok, pollRun_failed_state _ _ hfail]

/-- A success at 1700000000000 followed by failures 3000 and 6000 milliseconds
later: the texts are "offline (3s)" and "offline (6s)". -/
theorem pollRun_stale_monotone_witness :
    (pollRun
      [{ Env.down "" 1700000000000 with system := .ok ⟨true, "2023-11-14T22:13:20Z"⟩ },
        Env.down "Failed to fetch" 1700000003000]
      World.init).systemMeta = "offline (3s)"
    ∧ (pollRun
      [{ Env.down "" 1700000000000 with system := .ok ⟨true, "2023-11-14T22:13:20Z"⟩ },
        Env.down "Failed to fetch" 1700000003000,
        Env.down "Failed to fetch" 1700000006000]
      World.init).systemMeta = "offline (6s)" :=
  have h := pollRun_stale_monotone
    { Env.down "" 1700000000000 with system := .ok ⟨true, "2023-11-14T22:13:20Z"⟩ }
    ⟨true, "2023-11-14T22:13:20Z"⟩ []
    (Env.down "Failed to fetch" 1700000003000) (Env.down "Failed to fetch" 1700000006000)
    World.init rfl
    (by
      intro env henv
      simp only [List.nil_append, List.mem_cons, List.mem_singleton, List.not_mem_nil,
        or_false] at henv
      rcases henv with rfl | rfl <;> exact ⟨"Failed to fetch", rfl⟩)
    (by decide) (by decide)
  ⟨h.1, h.2.1⟩

/-- In a session with no successful poll, a failed poll at any clock reading other
than 0 shows the text with an elapsed time, computed from the reading itself. -/
theorem pollSystem_never_ok_any_reading (env : Env) (w : World) (e : String)
    (h : env.system = .error e) (h0 : w.state.lastSystemOkAt = 0) (hnow : env.now ≠ 0) :
    (pollSystem env w).2.systemMeta
      = "offline (" ++ toString (roundSeconds env.now) ++ "s)" := by
  rw [pollSystem_failed env w e h]
  simp only [h0, sub_zero]
  exact offlineText_of_ne _ hnow

/-- C1: in a session with no successful poll (the timestamp still at its initial
value 0), a failed poll at clock reading 1700000000000 shows the text with an
elapsed time, "offline (1700000000s)", and not the plain text "offline". -/
theorem pollSystem_never_ok_shows_elapsed :
    World.init.state.lastSystemOkAt = 0
    ∧ World.init.calls = []
    ∧ (pollSystem (Env.down "Failed to fetch" 1700000000000) World.init).2.systemMeta
        = "offline (1700000000s)" :=
  ⟨rfl, rfl, rfl⟩

/-- C10: a poll that succeeds at clock reading 1700000003000, recording that
reading as the success timestamp, followed by a poll that fails at the same
reading shows the plain text "offline", with no elapsed time, and not
"offline (0s)". -/
theorem pollRun_same_reading_shows_plain_offline :
    (pollRun
      [{ Env.down "" 1700000003000 with system := .ok ⟨true, "2023-11-14T22:13:23Z"⟩ },
        Env.down "Failed to fetch" 1700000003000]
      World.init).systemMeta = "offline"
    ∧ (pollRun
      [{ Env.down "" 1700000003000 with system := .ok ⟨true, "2023-11-14T22:13:23Z"⟩ }]
      World.init).state.lastSystemOkAt = 1700000003000 :=
  ⟨rfl, rfl⟩

/-! ## Transport adapter -/

/-- C6, counterexample: a 400 response whose body carries the empty string as
detail fails with the status line and not with the detail; a 200 response whose
body does not parse fails although the status is a success; a 200 response
whose body is the JSON null returns null although the status is not 204. -/
theorem api_claim_counterexample :
    (JsVal.obj [("detail", .str "")]).detail.toStr = ""
    ∧ api (.ok ⟨400, "Bad Request", .ok (.obj [("detail", .str "")])⟩)
        = .error "400 Bad Request"
    ∧ (Response.ok ⟨200, "OK", .error "Unexpected end of JSON input"⟩ = true
      ∧ api (.ok ⟨200, "OK", .error "Unexpected end of JSON input"⟩)
        = .error "Unexpected end of JSON input")
    ∧ api (.ok ⟨200, "OK", .ok .null⟩) = .ok .null :=
  ⟨rfl, rfl, ⟨rfl, rfl⟩, rfl⟩

/-- C6, amended: `api` fails exactly when the status is not a success or, for a
success status other than 204, the body does not parse. On a non-success status
the message is the body's detail when the body parses and its detail is truthy
(for a string: non-empty), and the status followed by a space and the reason
phrase otherwise, also when the body does not parse. On a success status the
result is null for 204 without reading the body, and the outcome of parsing
the body otherwise. -/
theorem api_result (res : Response) :
    ((∃ e, api (.ok res) = .error e) ↔
      (res.ok = false ∨ (res.status ≠ 204 ∧ ∃ e, res.json = .error e)))
    ∧ (res.ok = false → ∀ j s, res.json = .ok j → j.detail = .str s → s ≠ "" →
        api (.ok res) = .error s)
    ∧ (res.ok = false → ∀ j, res.json = .ok j → j.detail.truthy = true →
        api (.ok res) = .error j.detail.toStr)
    ∧ (res.ok = false → (∀ j, res.json = .ok j → j.detail.truthy = false) →
        api (.ok res) = .error (toString res.status ++ " " ++ res.statusText))
    ∧ (res.ok = true → res.status = 204 → api (.ok res) = .ok .null)
    ∧ (res.ok = true → res.status ≠ 204 → api (.ok res) = res.json) := by
  refine ⟨?_, ?_, ?_, ?_, ?_, ?_⟩
  · cases hok : res.ok with
    | false => simp [api, hok]
    | true =>
      by_cases h204 : res.status = 204
      · simp [api, hok, h204]
      · simp [api, hok, h204]
  · intro hok j s hj hd hs
    simp [api, hok, hj, hd, JsVal.truthy, hs, JsVal.toStr]
  · intro hok j hj hd
    simp [api, hok, hj, hd]
  · intro hok hall
    cases hj : res.json with
    | error e => simp [api, hok, hj, JsVal.toStr, Response.statusLine]
    | ok j => simp [api, hok, hj, hall j hj, JsVal.toStr, Response.statusLine]
  · intro hok h204
    simp [api, hok, h204]
  · intro hok h204
    simp [api, hok, h204]

/-- C6, amended, at concrete responses: a 404 with detail "No active shift", a 502
with a body that does not parse, and a 204. -/
theorem api_result_witness :
    api (.ok ⟨404, "Not Found", .ok (.obj [("detail", .str "No active shift")])⟩)
        = .error "No active shift"
    ∧ api (.ok ⟨502, "Bad Gateway", .error "Unexpected token <"⟩) = .error "502 Bad Gateway"
    ∧ api (.ok ⟨204, "No Content", .error "Unexpected end of JSON input"⟩) = .ok .null :=
  ⟨(api_result ⟨404, "Not Found", .ok (.obj [("detail", .str "No active shift")])⟩).2.1
      rfl _ _ rfl rfl (by decide),
    (api_result ⟨502, "Bad Gateway", .error "Unexpected token <"⟩).2.2.2.1
      rfl (fun _ h => nomatch h),
    (api_result ⟨204, "No Content", .error "Unexpected end of JSON input"⟩).2.2.2.2.1
      rfl rfl⟩

/-! ## Shift tracker -/

/-- C2, counterexample: with no active shift the handler returns normally and
emits no notification: the world, hint and notification log included, is
what it was. -/
theorem saveNotesClick_silent_counterexample :
    World.init.state.shift = none
    ∧ (saveNotesClick (Env.down "Failed to fetch" 1700000000000) World.init).1 = .ok ()
    ∧ (saveNotesClick (Env.down "Failed to fetch" 1700000000000) World.init).2.toasts = []
    ∧ (saveNotesClick (Env.down "Failed to fetch" 1700000000000) World.init).2.shiftHint = "" :=
  ⟨rfl, rfl, rfl, rfl⟩

/-- C2, amended: with no active shift the handler returns at once without raising
or notifying anything: no request is issued and the whole world (shift, tasks,
request log, notification log) is unchanged. -/
theorem saveNotesClick_no_shift (env : Env) (w : World) (h : w.state.shift = none) :
    saveNotesClick env w = (.ok (), w) := by
  simp [saveNotesClick, Eff.tryCatch, Eff.bind_run, getWorld, h, Eff.pure_run]

/-- C2, amended, at the initial world with every request answered. -/
theorem saveNotesClick_no_shift_witness :
    saveNotesClick { Env.down "" 0 with saveNotes := .ok none } World.init
      = (.ok (), World.init) :=
  saveNotesClick_no_shift _ World.init rfl

/-- C3, counterexample: with one task held, an end request that succeeds and a
refresh of the current shift that fails, the handler finishes with the task
still in the list. -/
theorem shiftEndClick_keeps_tasks_counterexample :
    (shiftEndClick
      { Env.down "Failed to fetch" 1700000000000 with shiftEnd := .ok () }
      { World.init with
        state :=
          { shift := some ⟨"s1", "2024-01-01T00:00:00Z", none, none⟩
            tasks := [⟨"t1", "Check boiler", none⟩]
            focus := false
            lastSystemOkAt := 0 } }).2.state.tasks
      = [⟨"t1", "Check boiler", none⟩] :=
  rfl

/-- C3, amended: when the end request succeeds, the task list is empty at the end
of the handler if the refresh of the current shift succeeds too (and the shift
held is then the refreshed one), and is the list held before if that refresh
fails. -/
theorem shiftEndClick_tasks (env : Env) (w : World) (hend : env.shiftEnd = .ok ()) :
    (∀ s, env.shiftCurrent = .ok s →
      (shiftEndClick env w).2.state.tasks = [] ∧ (shiftEndClick env w).2.state.shift = s)
    ∧ (∀ e, env.shiftCurrent = .error e →
      (shiftEndClick env w).2.state.tasks = w.state.tasks) := by
  constructor
  · intro s hs
    cases hsh : s <;>
      simp [shiftEndClick, Eff.tryCatch, Eff.bind_run, call_run, hend, toast, modifyWorld,
        modifyState, refreshShift_succeeded _ _ s hs, renderShift, renderTasks, hsh]
  · intro e he
    simp [shiftEndClick, Eff.tryCatch, Eff.bind_run, call_run, hend, toast, modifyWorld,
      refreshShift_failed _ _ e he]

/-- C3, amended, at a world holding one task, with both requests answered. -/
theorem shiftEndClick_tasks_witness :
    (shiftEndClick
      { Env.down "" 1700000000000 with shiftEnd := .ok (), shiftCurrent := .ok none }
      { World.init with
        state :=
          { shift := some ⟨"s1", "2024-01-01T00:00:00Z", none, none⟩
            tasks := [⟨"t1", "Check boiler", none⟩]
            focus := false
            lastSystemOkAt := 0 } }).2.state.tasks = [] :=
  ((shiftEndClick_tasks _ _ rfl).1 none rfl).1

/-- C4, counterexample: from no shift, a start request that succeeds with shift
"s1" followed by a task refresh that fails leaves the tracker holding "s1";
and a failed refresh of the current shift emits no notification. -/
theorem shift_ops_atomicity_counterexample :
    World.init.state.shift = none
    ∧ (shiftStartClick
      { Env.down "Failed to fetch" 1700000000000 with
        shiftStart := .ok ⟨some ⟨"s1", "2024-01-01T00:00:00Z", none, none⟩, none, none⟩ }
      World.init).2.state.shift = some ⟨"s1", "2024-01-01T00:00:00Z", none, none⟩
    ∧ (refreshShift (Env.down "Failed to fetch" 1700000000000) World.init).1
        = .error "Failed to fetch"
    ∧ (refreshShift (Env.down "Failed to fetch" 1700000000000) World.init).2.toasts = [] :=
  ⟨rfl, rfl, rfl, rfl⟩

/-- C4, amended: a transport failure with message `e` leaves `state` as it was in
refresh, end and saveNotes, and in start when the start request itself fails;
when the start request succeeds and the task refresh after it fails, the shift
held is already the returned one and the rest of `state` is as before. The
handlers of start, end and saveNotes emit `e` as the last notification (end
after "Shift ended." when its refresh fails); refresh emits none and passes
`e` to its caller. -/
theorem shift_ops_on_transport_failure (env : Env) (w : World) (e : String) :
    (env.shiftCurrent = .error e →
      (refreshShift env w).1 = .error e
      ∧ (refreshShift env w).2.state = w.state
      ∧ (refreshShift env w).2.toasts = w.toasts)
    ∧ (env.shiftStart = .error e →
      (shiftStartClick env w).2.state = w.state
      ∧ (shiftStartClick env w).2.toasts = w.toasts ++ [e])
    ∧ (∀ r, env.shiftStart = .ok r → env.tasksCurrent = .error e →
      (shiftStartClick env w).2.state = { w.state with shift := r.shift }
      ∧ (shiftStartClick env w).2.toasts = w.toasts ++ [e])
    ∧ (env.shiftEnd = .error e →
      (shiftEndClick env w).2.state = w.state
      ∧ (shiftEndClick env w).2.toasts = w.toasts ++ [e])
    ∧ (env.shiftEnd = .ok () → env.shiftCurrent = .error e →
      (shiftEndClick env w).2.state = w.state
      ∧ (shiftEndClick env w).2.toasts = w.toasts ++ ["Shift ended.", e])
    ∧ (∀ sh, w.state.shift = some sh → env.saveNotes = .error e →
      (saveNotesClick env w).2.state = w.state
      ∧ (saveNotesClick env w).2.toasts = w.toasts ++ [e]) := by
  refine ⟨?_, ?_, ?_, ?_, ?_, ?_⟩
  · intro h
    simp [refreshShift_failed _ _ e h]
  · intro h
    simp [shiftStartClick, Eff.tryCatch, Eff.bind_run, call_run, h, toast, modifyWorld]
  · intro r hr ht
    cases hsh : r.shift <;>
      simp [shiftStartClick, Eff.tryCatch, Eff.bind_run, call_run, hr, toast, modifyWorld,
        modifyState, renderShift, refreshTasks_failed _ _ e ht, hsh]
  · intro h
    simp [shiftEndClick, Eff.tryCatch, Eff.bind_run, call_run, h, toast, modifyWorld]
  · intro h hc
    simp [shiftEndClick, Eff.tryCatch, Eff.bind_run, call_run, h, toast, modifyWorld,
      refreshShift_failed _ _ e hc]
  · intro sh hsh h
    simp [saveNotesClick, Eff.tryCatch, Eff.bind_run, call_run, getWorld, hsh, h, toast,
      modifyWorld]

/-- C4, amended, at the initial world with every request rejected. -/
theorem shift_ops_on_transport_failure_witness :
    (shiftStartClick (Env.down "Failed to fetch" 1700000000000) World.init).2.state
        = World.init.state
    ∧ (shiftStartClick (Env.down "Failed to fetch" 1700000000000) World.init).2.toasts
        = ["Failed to fetch"] :=
  (shift_ops_on_transport_failure (Env.down "Failed to fetch" 1700000000000) World.init
    "Failed to fetch").2.1 rfl

/-- C8: after a start request that succeeds and a task refresh that succeeds, the
shift held is the returned one and exactly one notification was emitted:
"Carried n task(s)." for a carried count n other than zero, otherwise "Shift
already active." when that flag is set, otherwise "Shift started.". -/
theorem shiftStartClick_outcome (env : Env) (w : World) (r : StartResp) (ts : List Task)
    (hs : env.shiftStart = .ok r) (ht : env.tasksCurrent = .ok ts) :
    (shiftStartClick env w).2.state.shift = r.shift
    ∧ (∀ n, r.carried_task_count = some n → n ≠ 0 →
      (shiftStartClick env w).2.toasts
        = w.toasts ++ ["Carried " ++ toString n ++ " task(s)."])
    ∧ ((r.carried_task_count = none ∨ r.carried_task_count = some 0) →
      r.already_active = some true →
      (shiftStartClick env w).2.toasts = w.toasts ++ ["Shift already active."])
    ∧ ((r.carried_task_count = none ∨ r.carried_task_count = some 0) →
      r.already_active ≠ some true →
      (shiftStartClick env w).2.toasts = w.toasts ++ ["Shift started."]) := by
  refine ⟨?_, ?_, ?_, ?_⟩
  · cases hsh : r.shift <;> cases hc : truthyNat r.carried_task_count <;>
      by_cases ha : r.already_active = some true <;>
      simp [shiftStartClick, Eff.tryCatch, Eff.bind_run, call_run, hs, toast, modifyWorld,
        modifyState, renderShift, refreshTasks_succeeded _ _ ts ht, renderTasks, hsh, hc, ha]
  · intro n hn hn0
    cases hsh : r.shift <;>
      simp [shiftStartClick, Eff.tryCatch, Eff.bind_run, call_run, hs, toast, modifyWorld,
        modifyState, renderShift, refreshTasks_succeeded _ _ ts ht, renderTasks, hsh, hn,
        truthyNat, hn0]
  · intro hn ha
    cases hsh : r.shift <;> rcases hn with hn | hn <;>
      simp [shiftStartClick, Eff.tryCatch, Eff.bind_run, call_run, hs, toast, modifyWorld,
        modifyState, renderShift, refreshTasks_succeeded _ _ ts ht, renderTasks, hsh, hn,
        truthyNat, ha]
  · intro hn ha
    cases hsh : r.shift <;> rcases hn with hn | hn <;>
      simp [shiftStartClick, Eff.tryCatch, Eff.bind_run, call_run, hs, toast, modifyWorld,
        modifyState, renderShift, refreshTasks_succeeded _ _ ts ht, renderTasks, hsh, hn,
        truthyNat, ha]

/-- C8, at the scenario of the specification: from no shift, the response with
shift "s1" and a carried count of 2 leaves the tracker holding "s1" and emits
"Carried 2 task(s).". -/
theorem shiftStartClick_outcome_witness :
    (shiftStartClick
      { Env.down "" 1700000000000 with
        shiftStart := .ok ⟨some ⟨"s1", "2024-01-01T00:00:00Z", none, none⟩, some 2, none⟩
        tasksCurrent := .ok [⟨"t1", "Check boiler", none⟩, ⟨"t2", "Lock gate", none⟩] }
      World.init).2.state.shift = some ⟨"s1", "2024-01-01T00:00:00Z", none, none⟩
    ∧ (shiftStartClick
      { Env.down "" 1700000000000 with
        shiftStart := .ok ⟨some ⟨"s1", "2024-01-01T00:00:00Z", none, none⟩, some 2, none⟩
        tasksCurrent := .ok [⟨"t1", "Check boiler", none⟩, ⟨"t2", "Lock gate", none⟩] }
      World.init).2.toasts = ["Carried 2 task(s)."] :=
  have h := shiftStartClick_outcome
    { Env.down "" 1700000000000 with
      shiftStart := .ok ⟨some ⟨"s1", "2024-01-01T00:00:00Z", none, none⟩, some 2, none⟩
      tasksCurrent := .ok [⟨"t1", "Check boiler", none⟩, ⟨"t2", "Lock gate", none⟩] }
    World.init _ _ rfl rfl
  ⟨h.1, h.2.1 2 rfl (by decide)⟩

/-! ## Task ledger -/

/-- C5: when the checkbox of the task at position `i` has been set to `desired`
and the handler's network work fails with message `e` (the complete or reopen
request, or the task refresh after it), the checkbox ends at the negation of
`desired`, the task list (that task and its completion timestamp included) is
unchanged, and `e` is the one notification emitted and the hint shown. -/
theorem checkboxChange_rollback (env : Env) (w : World) (i : Nat) (t : Task)
    (desired : Bool) (e : String)
    (ht : w.state.tasks[i]? = some t)
    (hc : w.checks[i]? = some desired)
    (hfail : (if desired then env.completeTask else env.reopenTask) = .error e
      ∨ ((if desired then env.completeTask else env.reopenTask) = .ok ()
        ∧ env.tasksCurrent = .error e)) :
    (checkboxChange env i t w).2.checks[i]? = some (!desired)
    ∧ (checkboxChange env i t w).2.state.tasks = w.state.tasks
    ∧ (checkboxChange env i t w).2.state.tasks[i]? = some t
    ∧ (checkboxChange env i t w).2.toasts = w.toasts ++ [e]
    ∧ (checkboxChange env i t w).2.shiftHint = e := by
  have hlen : i < w.checks.length := by
    rcases Nat.lt_or_ge i w.checks.length with h | h
    · exact h
    · rw [List.getElem?_eq_none h] at hc
      cases hc
  have hopt : w.checks[i]? = some w.checks[i] := List.getElem?_eq_getElem hlen
  have hgetElem : w.checks[i] = desired := by
    rw [hopt] at hc
    exact Option.some.inj hc
  cases desired
  · have hf : env.reopenTask = .error e
        ∨ (env.reopenTask = .ok () ∧ env.tasksCurrent = .error e) := by
      simpa using hfail
    rcases hf with h | ⟨h1, h2⟩
    · simp [checkboxChange, Eff.tryCatch, Eff.bind_run, call_run, getWorld, hgetElem, hc, h,
        toast, modifyWorld, List.getElem?_set, hlen, ht]
    · simp [checkboxChange, Eff.tryCatch, Eff.bind_run, call_run, getWorld, hgetElem, hc, h1,
        toast, modifyWorld, refreshTasks_failed _ _ e h2, List.getElem?_set, hlen, ht]
  · have hf : env.completeTask = .error e
        ∨ (env.completeTask = .ok () ∧ env.tasksCurrent = .error e) := by
      simpa using hfail
    rcases hf with h | ⟨h1, h2⟩
    · simp [checkboxChange, Eff.tryCatch, Eff.bind_run, call_run, getWorld, hgetElem, hc, h,
        toast, modifyWorld, List.getElem?_set, hlen, ht]
    · simp [checkboxChange, Eff.tryCatch, Eff.bind_run, call_run, getWorld, hgetElem, hc, h1,
        toast, modifyWorld, refreshTasks_failed _ _ e h2, List.getElem?_set, hlen, ht]

/-- C5, at a list of one open task whose checkbox was just ticked, with the
complete request rejected. -/
theorem checkboxChange_rollback_witness :
    (checkboxChange (Env.down "Failed to fetch" 1700000000000) 0 ⟨"t1", "Check boiler", none⟩
      { World.init with
        state :=
          { shift := some ⟨"s1", "2024-01-01T00:00:00Z", none, none⟩
            tasks := [⟨"t1", "Check boiler", none⟩]
            focus := false
            lastSystemOkAt := 0 }
        checks := [true] }).2.checks[0]? = some false :=
  (checkboxChange_rollback (Env.down "Failed to fetch" 1700000000000)
    { World.init with
      state :=
        { shift := some ⟨"s1", "2024-01-01T00:00:00Z", none, none⟩
          tasks := [⟨"t1", "Check boiler", none⟩]
          focus := false
          lastSystemOkAt := 0 }
      checks := [true] }
    0 ⟨"t1", "Check boiler", none⟩ true "Failed to fetch" rfl rfl (Or.inl rfl)).1

/-- C9: the submit handler issues a request exactly when a shift is held and the
entered title is non-empty after trimming; the first request is then the
create request with the trimmed title; otherwise the request log and `state`
are unchanged. -/
theorem taskFormSubmit_gating (env : Env) (w : World) :
    ((taskFormSubmit env w).2.calls ≠ w.calls ↔
      (w.state.shift.isSome = true ∧ jsTrim w.taskTitle ≠ ""))
    ∧ (w.state.shift.isSome = true → jsTrim w.taskTitle ≠ "" →
      ∃ rest, (taskFormSubmit env w).2.calls
        = w.calls ++ ⟨"POST", "/api/tasks", .title (jsTrim w.taskTitle)⟩ :: rest)
    ∧ (¬ (w.state.shift.isSome = true ∧ jsTrim w.taskTitle ≠ "") →
      (taskFormSubmit env w).2.calls = w.calls
      ∧ (taskFormSubmit env w).2.state = w.state) := by
  have hyes : w.state.shift.isSome = true → jsTrim w.taskTitle ≠ "" →
      ∃ rest, (taskFormSubmit env w).2.calls
        = w.calls ++ ⟨"POST", "/api/tasks", .title (jsTrim w.taskTitle)⟩ :: rest := by
    intro hs ht
    obtain ⟨sh, hs1⟩ : ∃ sh, w.state.shift = some sh := Option.isSome_iff_exists.mp hs
    cases hc : env.createTask with
    | error e =>
      exact ⟨[], by
        simp [taskFormSubmit, Eff.tryCatch, Eff.bind_run, call_run, getWorld, hs1, ht, hc,
          toast, modifyWorld]⟩
    | ok u =>
      cases hr : env.tasksCurrent with
      | error e =>
        exact ⟨[⟨"GET", "/api/tasks/current", .none⟩], by
          simp [taskFormSubmit, Eff.tryCatch, Eff.bind_run, call_run, getWorld, hs1, ht, hc,
            toast, modifyWorld, refreshTasks_failed _ _ e hr]⟩
      | ok ts =>
        exact ⟨[⟨"GET", "/api/tasks/current", .none⟩], by
          simp [taskFormSubmit, Eff.tryCatch, Eff.bind_run, call_run, getWorld, hs1, ht, hc,
            toast, modifyWorld, refreshTasks_succeeded _ _ ts hr, renderTasks]⟩
  have hno : ¬ (w.state.shift.isSome = true ∧ jsTrim w.taskTitle ≠ "") →
      (taskFormSubmit env w).2.calls = w.calls
      ∧ (taskFormSubmit env w).2.state = w.state := by
    intro h
    cases hsh : w.state.shift with
    | none =>
      simp [taskFormSubmit, Eff.bind_run, getWorld, hsh, toast, modifyWorld]
    | some sh =>
      have ht : jsTrim w.taskTitle = "" := by
        by_contra hne
        exact h ⟨by simp [hsh], hne⟩
      simp [taskFormSubmit, Eff.bind_run, getWorld, hsh, ht, Eff.pure_run]
  refine ⟨⟨fun hne => ?_, fun ⟨hs, ht⟩ => ?_⟩, hyes, hno⟩
  · by_contra hcond
    exact hne (hno hcond).1
  · obtain ⟨rest, hrest⟩ := hyes hs ht
    rw [hrest]
    simp

/-- C9, at the scenario of the specification: with a shift held and the title
"  " entered, no request is issued and `state` is unchanged. -/
theorem taskFormSubmit_gating_witness :
    (taskFormSubmit
      { Env.down "" 1700000000000 with createTask := .ok (), tasksCurrent := .ok [] }
      { World.init with
        state :=
          { shift := some ⟨"s1", "2024-01-01T00:00:00Z", none, none⟩
            tasks := []
            focus := false
            lastSystemOkAt := 0 }
        taskTitle := "  " }).2.calls = []
    ∧ (taskFormSubmit
      { Env.down "" 1700000000000 with createTask := .ok (), tasksCurrent := .ok [] }
      { World.init with
        state :=
          { shift := some ⟨"s1", "2024-01-01T00:00:00Z", none, none⟩
            tasks := []
            focus := false
            lastSystemOkAt := 0 }
        taskTitle := "  " }).2.state
      = { shift := some ⟨"s1", "2024-01-01T00:00:00Z", none, none⟩
          tasks := []
          focus := false
          lastSystemOkAt := 0 } :=
  (taskFormSubmit_gating _ _).2.2 (fun h => h.2 (by decide))

/-! ## Refresh scheduler -/

/-- A failed initial shift fetch ends `boot` with that error: only the clock
timer has been registered, only the shift request has been issued, and nothing
has been notified. -/
theorem boot_aborts_on_shift_failure (env : Env) (w : World) (e : String)
    (h : env.shiftCurrent = .error e) :
    (boot env w).1 = .error e
    ∧ (boot env w).2.timers = w.timers ++ [("tick", 1000)]
    ∧ (boot env w).2.calls = w.calls ++ [⟨"GET", "/api/shift/current", .none⟩]
    ∧ (boot env w).2.toasts = w.toasts := by
  by_cases h1 : env.qsFocus = some "1" <;> by_cases h2 : env.savedFocus = some "1" <;>
    simp [boot, Eff.bind_run, setInterval, setFocus, modifyState, modifyWorld, h1, h2,
      Eff.pure_run, refreshShift_failed _ _ e h]

/-- C7: with the initial shift fetch rejected and every other request answered,
`boot` ends with the error after registering only the clock timer and issuing
only the shift request, with no notification; and a periodic firing of the
shift refresh that is rejected ends with the error and no notification. -/
theorem boot_shift_fetch_failure_uncontained :
    boot
      { Env.down "" 1700000000000 with
        shiftCurrent := .error "Failed to fetch"
        tasksCurrent := .ok []
        system := .ok ⟨true, "2023-11-14T22:13:20Z"⟩ }
      World.init
      = (.error "Failed to fetch",
        { World.init with
          timers := [("tick", 1000)]
          calls := [⟨"GET", "/api/shift/current", .none⟩] })
    ∧ Cycle.fire (Env.down "Failed to fetch" 1700000000000) .shift World.init
      = (.error "Failed to fetch",
        { World.init with calls := [⟨"GET", "/api/shift/current", .none⟩] }) :=
  ⟨rfl, rfl⟩

end NightWatch
